import Mathlib

/-!
Verification of the Sentinel SRE agent against its specification.

The Python sources are shallowly embedded: pure record-building code becomes
Lean functions over structures; calls into external collaborators (the
language model, the Docker backend, the session service of the agent
runtime) are modelled by explicit oracle parameters or outcome types, so
that every control-flow branch of the embedded code is the image of a
branch of the source.
-/

namespace Sentinel

/-! ## Data model (spec section 3; src/modules/rca_brain.py) -/

/-- Output record of one Decision Policy invocation: the four output fields of
the RootCauseAnalysis signature in src/modules/rca_brain.py. -/
structure Prediction where
  reasoning : String
  root_cause : String
  severity : String
  suggested_action : String
deriving DecidableEq, Repr

/-- Enumerated severity labels of the spec data model. -/
def severityLabels : List String := ["LOW", "MEDIUM", "HIGH", "CRITICAL"]

/-- Enumerated action labels of the spec data model. -/
def actionLabels : List String := ["restart_service", "escalate", "ignore", "none"]

/-- A Decision is well formed when both categorical fields lie in their
enumerations (spec section 3 invariant). -/
def wellFormed (p : Prediction) : Prop :=
  p.severity ∈ severityLabels ∧ p.suggested_action ∈ actionLabels

instance (p : Prediction) : Decidable (wellFormed p) := by
  unfold wellFormed
  infer_instance

/-- A labeled training example from src/modules/train_brain.py: the input
fields together with the expected Decision fields. -/
structure LabeledExample where
  container_name : String
  logs : String
  reasoning : String
  root_cause : String
  severity : String
  suggested_action : String
deriving DecidableEq, Repr

/-! ## Decision Policy (src/modules/rca_brain.py) -/

/-- The external language model behind the dspy ChainOfThought program: given
the stored few-shot demonstrations (steering context), the container name and
the logs, it returns the parsed output fields. The model is an external
collaborator, so it is a parameter of the embedding, not a definition. -/
def LM : Type := List LabeledExample → String → String → Prediction

/-- SREBrain state: the compiled few-shot demonstrations, empty when running
zero-shot. -/
structure SREBrain where
  demos : List LabeledExample := []

/-- SREBrain.forward from src/modules/rca_brain.py: it hands the inputs to
the ChainOfThought program (the language model steered by the stored
demonstrations) and returns its output verbatim; no field is validated. -/
def SREBrain.forward (lm : LM) (brain : SREBrain)
    (container_name logs : String) : Prediction :=
  lm brain.demos container_name logs

/-- SREBrain.load_production_weights from src/modules/rca_brain.py: the
stored compiled file is modelled as an optional demonstration list
(os.path.exists plus self.load). When the file is absent the brain is
returned unchanged, after printing a warning; no exception path exists. -/
def SREBrain.load_production_weights (brain : SREBrain)
    (stored : Option (List LabeledExample)) : SREBrain :=
  match stored with
  | some demos => { brain with demos := demos }
  | none => brain

/-! ## Agent tool (src/agents/sentinel_agent.py) -/

/-- consult_sre_expert from src/agents/sentinel_agent.py, given the brain
prediction it consumes: builds the returned dictionary, modelled as an
ordered association list of key-value pairs. -/
def consult_sre_expert (prediction : Prediction) : List (String × String) :=
  [("analysis", prediction.reasoning),
   ("root_cause", prediction.root_cause),
   ("severity", prediction.severity),
   ("recommended_action", prediction.suggested_action)]

/-- consult_sre_expert when the underlying brain call itself is fallible: the
source has no try/except around the brain invocation, so a failure of the
model call passes through unchanged and no fallback dictionary is built. -/
def consult_sre_expert_call (outcome : Except String Prediction) :
    Except String (List (String × String)) :=
  outcome.map consult_sre_expert

/-! ## Log/Action Gateway (src/servers/ops_server.py) -/

/-- A container summary as used by list_active_containers. -/
structure Container where
  name : String
  short_id : String
  status : String
deriving Repr

/-- Outcome of one call into the Docker backend: success, a NotFound
exception carrying its message, or any other exception carrying its
message. -/
inductive DockerOutcome (α : Type) where
  | ok (value : α)
  | notFound (msg : String)
  | backendError (msg : String)

/-- list_active_containers from src/servers/ops_server.py. The client flag
models whether docker.from_env succeeded at import time. Every branch of the
source returns a string; the generic except clause also covers a NotFound
exception, which the source does not single out here. -/
def list_active_containers (client : Bool)
    (backend : DockerOutcome (List Container)) : String :=
  if !client then "Error: Docker unavailable."
  else match backend with
    | .ok containers =>
        if containers.isEmpty then "No active containers found."
        else containers.foldl
          (fun report c =>
            report ++ "- " ++ c.name ++ " (ID: " ++ c.short_id ++ "): "
              ++ c.status ++ "\n")
          "ACTIVE CONTAINERS:\n"
    | .notFound e => "Docker Error: " ++ e
    | .backendError e => "Docker Error: " ++ e

/-- get_container_logs from src/servers/ops_server.py. The backend outcome
carries the decoded log text on success; the source maps an empty log text
to a placeholder, a NotFound exception to a dedicated message, and any other
exception to a System Error string. -/
def get_container_logs (client : Bool) (container_name : String)
    (backend : DockerOutcome String) : String :=
  if !client then "Error: Docker unavailable."
  else match backend with
    | .ok logs => if logs == "" then "Logs are empty." else logs
    | .notFound _ =>
        "Error: Container \x27" ++ container_name ++ "\x27 not found."
    | .backendError e => "System Error: " ++ e

/-- restart_service from src/servers/ops_server.py. Its single except clause
catches every exception, NotFound included, and returns a Restart Failed
string built from the exception message. -/
def restart_service (client : Bool) (container_name : String)
    (backend : DockerOutcome Unit) : String :=
  if !client then "Error: Docker unavailable."
  else match backend with
    | .ok _ =>
        "✅ Service \x27" ++ container_name ++ "\x27 restarted successfully."
    | .notFound e => "Restart Failed: " ++ e
    | .backendError e => "Restart Failed: " ++ e

/-! ## Policy Calibration Job (src/modules/train_brain.py) -/

/-- validate_answer from src/modules/train_brain.py: a prediction passes when
its severity and its suggested action both equal the labels of the training
example; no other field is consulted. -/
def validate_answer (ex : LabeledExample) (prediction : Prediction) : Bool :=
  ex.severity == prediction.severity &&
    ex.suggested_action == prediction.suggested_action

/-- The three labeled examples of the trainset in src/modules/train_brain.py. -/
def trainset : List LabeledExample :=
  [{ container_name := "production-db",
     logs := "FATAL: Password authentication failed for user \x27admin\x27. Connection closed.",
     reasoning := "The logs show a clear authentication failure. This is likely a configuration issue in the client, not the DB itself.",
     root_cause := "Auth Failure",
     severity := "CRITICAL",
     suggested_action := "escalate" },
   { container_name := "frontend-ui",
     logs := "INFO: Rendered page in 20ms. INFO: Cache hit.",
     reasoning := "All logs are INFO level. No errors detected.",
     root_cause := "None",
     severity := "LOW",
     suggested_action := "none" },
   { container_name := "worker-node",
     logs := "Error: Java heap space. java.lang.OutOfMemoryError. Terminating process.",
     reasoning := "The application ran out of memory and crashed. It needs a restart to recover temporarily.",
     root_cause := "OOMKilled",
     severity := "HIGH",
     suggested_action := "restart_service" }]

/-- Modelled from the spec: BootstrapFewShot, the external optimizer invoked
by src/modules/train_brain.py, is not part of the repository. Spec section
4.3: for each candidate demonstration, generate a prediction with the
current policy; keep predictions whose severity and action exactly equal the
label, up to a fixed cap on kept demonstrations. The current policy is
modelled by the predict oracle. -/
def bootstrapFewShot (metric : LabeledExample → Prediction → Bool)
    (max_bootstrapped_demos : Nat) (predict : LabeledExample → Prediction)
    (dataset : List LabeledExample) : List LabeledExample :=
  (dataset.filter (fun ex => metric ex (predict ex))).take max_bootstrapped_demos

/-- compile from src/modules/train_brain.py: runs the optimizer with the
validate_answer metric and max_bootstrapped_demos set to 2 over the fixed
trainset, and returns the demonstration set that is then persisted as the
new ExampleSet. -/
def compile (predict : LabeledExample → Prediction) : List LabeledExample :=
  bootstrapFewShot validate_answer 2 predict trainset

/-! ## Request Façade (src/api_server.py) -/

/-- Session key: the (user id, session id) pair. -/
abbrev SessionKey := String × String

/-- A session held by the session service; its turn history is opaque to the
façade, so it is modelled as a bare record of its key. -/
structure Session where
  user_id : String
  session_id : String
deriving DecidableEq, Repr

/-- The in-memory session service state: sessions keyed by
(user id, session id). -/
abbrev SessionService := List (SessionKey × Session)

/-- Modelled from the spec: InMemorySessionService.create_session belongs to
the external agent runtime, not to the repository. Spec section 4.5 requires
a Session keyed by (user id, session id); the service registers a fresh
session under the key and fails when one already exists, the failure mode
the façade code guards against. -/
def create_session (svc : SessionService) (user_id session_id : String) :
    Except String SessionService :=
  if (svc.lookup (user_id, session_id)).isSome then
    Except.error "Session already exists"
  else
    Except.ok (((user_id, session_id),
      { user_id := user_id, session_id := session_id }) :: svc)

/-- The session-creation attempt inside analyze_incident in
src/api_server.py: create_session wrapped in try/except that swallows every
exception, leaving the service state unchanged on failure. -/
def ensure_session (svc : SessionService) (user_id session_id : String) :
    SessionService :=
  match create_session svc user_id session_id with
  | Except.ok updated => updated
  | Except.error _ => svc

/-- One text part of an orchestrator event (types.Part). -/
structure Part where
  text : Option String
deriving Repr

/-- Event content holding a part list (types.Content). -/
structure Content where
  parts : List Part
deriving Repr

/-- One event emitted by the orchestrator during a turn. -/
structure Event where
  content : Option Content
deriving Repr

/-- The inner part loop of analyze_incident in src/api_server.py: for each
part, when part.text is truthy (present and nonempty) it is appended to the
accumulator. -/
def appendParts (acc : String) (parts : List Part) : String :=
  parts.foldl
    (fun a p =>
      match p.text with
      | some t => if t == "" then a else a ++ t
      | none => a)
    acc

/-- The event loop of analyze_incident in src/api_server.py: the python
guard requires event.content truthy and its part list nonempty before the
inner loop runs. -/
def accumulateResponse (events : List Event) : String :=
  events.foldl
    (fun acc e =>
      match e.content with
      | some c => if c.parts.isEmpty then acc else appendParts acc c.parts
      | none => acc)
    ""

/-- The text fragments emitted by the orchestrator during a turn, in
emission order: one entry per part whose text field is present. -/
def partFragments : List Part → List String
  | [] => []
  | p :: ps =>
      (match p.text with
       | some t => [t]
       | none => []) ++ partFragments ps

/-- All fragments of an event list, in emission order. -/
def fragments : List Event → List String
  | [] => []
  | e :: es =>
      (match e.content with
       | some c => partFragments c.parts
       | none => []) ++ fragments es

/-- Concatenation of a fragment list in order. -/
def joinAll : List String → String
  | [] => ""
  | t :: ts => t ++ joinAll ts

/-- The request body of the analyze endpoint (QueryRequest). -/
structure QueryRequest where
  user_id : String := "api_user_01"
  session_id : String := "session_001"
  query : String
deriving Repr

/-- The successful JSON body returned by analyze_incident. -/
structure SuccessResponse where
  status : String
  session_id : String
  response : String
deriving DecidableEq, Repr

/-- Result of one façade request: the success body, or the HTTPException the
outer except clause raises with status code 500 and the error message as
detail. -/
inductive ApiResult where
  | ok (r : SuccessResponse)
  | httpError (status_code : Nat) (detail : String)
deriving DecidableEq, Repr

/-- Outcome of the orchestrator turn driven by runner.run_async: either the
stream of events it emitted, or an exception (for instance a
PolicyCallFailure propagating out of the model call) with its message. -/
inductive TurnOutcome where
  | events (evs : List Event)
  | raised (msg : String)

/-- analyze_incident from src/api_server.py: attempt session creation with
errors swallowed, run the turn, accumulate the emitted text into one
response string and return the success body; any exception raised during
the turn reaches the outer except clause, which reports a 500 with the
message. Returns the result together with the session service state. -/
def analyze_incident (svc : SessionService) (request : QueryRequest)
    (turn : TurnOutcome) : ApiResult × SessionService :=
  let updated := ensure_session svc request.user_id request.session_id
  match turn with
  | TurnOutcome.events evs =>
      (ApiResult.ok
        { status := "success",
          session_id := request.session_id,
          response := accumulateResponse evs }, updated)
  | TurnOutcome.raised msg => (ApiResult.httpError 500 msg, updated)

/-! ## Helper lemmas -/

/-- The inner part loop appends exactly the concatenation of the fragments
of the parts, in order. -/
lemma appendParts_eq (parts : List Part) (acc : String) :
    appendParts acc parts = acc ++ joinAll (partFragments parts) := by
  induction parts generalizing acc with
  | nil => simp [appendParts, partFragments, joinAll]
  | cons p ps ih =>
      cases hp : p.text with
      | none =>
          have hstep : appendParts acc (p :: ps) = appendParts acc ps := by
            simp [appendParts, hp]
          rw [hstep, ih]
          simp [partFragments, hp]
      | some t =>
          have hstep : appendParts acc (p :: ps) = appendParts (acc ++ t) ps := by
            simp only [appendParts, List.foldl_cons, hp]
            rcases eq_or_ne t "" with h | h
            · subst h
              simp
            · simp [h]
          rw [hstep, ih]
          simp [partFragments, hp, joinAll, String.append_assoc]

/-- joinAll distributes over list append. -/
lemma joinAll_append (l₁ l₂ : List String) :
    joinAll (l₁ ++ l₂) = joinAll l₁ ++ joinAll l₂ := by
  induction l₁ with
  | nil => simp [joinAll]
  | cons t ts ih => simp [joinAll, ih, String.append_assoc]

/-- The event loop, started from an arbitrary accumulator, appends exactly
the concatenation of all emitted fragments in order. -/
lemma foldl_events_eq (events : List Event) (acc : String) :
    events.foldl
      (fun acc e =>
        match e.content with
        | some c => if c.parts.isEmpty then acc else appendParts acc c.parts
        | none => acc)
      acc = acc ++ joinAll (fragments events) := by
  induction events generalizing acc with
  | nil => simp [fragments, joinAll]
  | cons e es ih =>
      rw [List.foldl_cons, ih]
      cases hc : e.content with
      | none => simp [hc, fragments, joinAll_append, String.append_assoc]
      | some c =>
          cases hp : c.parts with
          | nil =>
              simp [hc, hp, fragments, partFragments, joinAll, joinAll_append]
          | cons q qs =>
              simp [hc, hp, fragments, appendParts_eq, joinAll_append,
                String.append_assoc]

/-- accumulateResponse equals the order-preserving concatenation of every
text fragment emitted during the turn. -/
lemma accumulateResponse_eq (events : List Event) :
    accumulateResponse events = joinAll (fragments events) := by
  have h := foldl_events_eq events ""
  simpa [accumulateResponse] using h

/-- A second session-creation attempt through the façade guard with the same
(user id, session id) pair leaves the service state unchanged. -/
lemma ensure_session_idem (svc : SessionService) (u s : String) :
    ensure_session (ensure_session svc u s) u s = ensure_session svc u s := by
  unfold ensure_session create_session
  by_cases h : (svc.lookup (u, s)).isSome
  · simp [h]
  · simp [h, List.lookup]

/-! ## Concrete inputs used by counterexamples -/

/-- A brain prediction whose suggested action lies outside the enumerated
action labels. -/
def roguePrediction : Prediction :=
  { reasoning := "model drifted",
    root_cause := "Unknown",
    severity := "HIGH",
    suggested_action := "reboot" }

/-- A language-model behaviour returning out-of-enum categorical fields: the
policy layer has no validation to stop it. -/
def badLM : LM := fun _ _ _ =>
  { reasoning := "free text",
    root_cause := "free text",
    severity := "banana",
    suggested_action := "reboot" }

/-! ## Claim theorems -/

/-- C1 counterexample: for a Decision whose suggested_action is the
out-of-enum value "reboot", consult_sre_expert returns "reboot" under
recommended_action, not "ignore" — the claimed fail-safe mapping does not
exist in the code. -/
theorem consult_out_of_enum_not_ignored :
    roguePrediction.suggested_action ∉ actionLabels ∧
    (consult_sre_expert roguePrediction).lookup "recommended_action" =
      some "reboot" ∧
    some "reboot" ≠ some "ignore" := by
  refine ⟨by decide, rfl, by decide⟩

/-- C1 (amended): consult_sre_expert passes the suggested_action of the
Decision through unmodified, so an out-of-enum value is returned verbatim
rather than as "ignore"; in particular it returns "restart_service" only
when the Decision already carried "restart_service". -/
theorem consult_action_passthrough (p : Prediction) :
    (consult_sre_expert p).lookup "recommended_action" =
      some p.suggested_action ∧
    ((consult_sre_expert p).lookup "recommended_action" =
        some "restart_service" ↔ p.suggested_action = "restart_service") := by
  constructor
  · rfl
  · rw [show (consult_sre_expert p).lookup "recommended_action" =
        some p.suggested_action from rfl]
    simp

/-- C2 counterexample: the Decision Policy performs no validation, so a
model behaviour emitting severity "banana" and action "reboot" yields a
Decision that is not well formed. -/
theorem decision_policy_ill_formed_output :
    ¬ wellFormed (SREBrain.forward badLM {} "web-frontend" "ERROR: boom") := by
  decide

/-- C2 (amended): a Decision produced by SREBrain.forward is well formed
exactly when the categorical fields the language model returned already lie
in the enumerations — the policy adds no enforcement of its own. -/
theorem decision_wellformed_iff_model_output (lm : LM) (b : SREBrain)
    (c l : String) :
    wellFormed (SREBrain.forward lm b c l) ↔
      ((lm b.demos c l).severity ∈ severityLabels ∧
        (lm b.demos c l).suggested_action ∈ actionLabels) :=
  Iff.rfl

/-- C3: every Gateway operation maps every error condition — unknown
workload id, unreachable backend, any other backend exception — to a
descriptive error string; the operations are total String-valued functions,
so no exception crosses the Gateway boundary. -/
theorem gateway_errors_return_strings (container_name e : String)
    (b₁ : DockerOutcome String) (b₂ : DockerOutcome Unit)
    (b₃ : DockerOutcome (List Container)) :
    get_container_logs true container_name (DockerOutcome.notFound e) =
      "Error: Container \x27" ++ container_name ++ "\x27 not found." ∧
    get_container_logs true container_name (DockerOutcome.backendError e) =
      "System Error: " ++ e ∧
    restart_service true container_name (DockerOutcome.notFound e) =
      "Restart Failed: " ++ e ∧
    restart_service true container_name (DockerOutcome.backendError e) =
      "Restart Failed: " ++ e ∧
    list_active_containers true (DockerOutcome.notFound e) =
      "Docker Error: " ++ e ∧
    list_active_containers true (DockerOutcome.backendError e) =
      "Docker Error: " ++ e ∧
    get_container_logs false container_name b₁ = "Error: Docker unavailable." ∧
    restart_service false container_name b₂ = "Error: Docker unavailable." ∧
    list_active_containers false b₃ = "Error: Docker unavailable." :=
  ⟨rfl, rfl, rfl, rfl, rfl, rfl, rfl, rfl, rfl⟩

/-- C4: validate_answer accepts exactly when severity and suggested_action
both match the label; the reasoning and root_cause fields never affect
acceptance; and the compiled ExampleSet keeps at most 2 demonstrations. -/
theorem calibration_metric_and_cap (ex : LabeledExample)
    (prediction : Prediction) (r rc : String)
    (predict : LabeledExample → Prediction) :
    (validate_answer ex prediction = true ↔
      (ex.severity = prediction.severity ∧
        ex.suggested_action = prediction.suggested_action)) ∧
    validate_answer ex { prediction with reasoning := r, root_cause := rc } =
      validate_answer ex prediction ∧
    (compile predict).length ≤ 2 := by
  refine ⟨by simp [validate_answer], rfl, ?_⟩
  unfold compile bootstrapFewShot
  exact List.length_take_le 2 _

/-- C5: with the persisted file absent, load_production_weights returns the
brain unchanged — no error value exists in its type — and the policy still
runs, in zero-shot mode (the model is invoked with no demonstrations). -/
theorem load_weights_missing_file_zero_shot (lm : LM) (brain : SREBrain)
    (c l : String) :
    SREBrain.load_production_weights brain none = brain ∧
    SREBrain.forward lm
        (SREBrain.load_production_weights { demos := [] } none) c l =
      lm [] c l :=
  ⟨rfl, rfl⟩

/-- C6: a second session-creation attempt with the same (user id,
session id) pair is a no-op at the façade — the guard swallows the
duplicate error, the service state is unchanged, and handling the request
after a duplicate attempt gives the same outcome as after a single
creation. -/
theorem duplicate_session_creation_noop (svc : SessionService)
    (u s q : String) (turn : TurnOutcome) :
    ensure_session (ensure_session svc u s) u s = ensure_session svc u s ∧
    analyze_incident (ensure_session svc u s)
        { user_id := u, session_id := s, query := q } turn =
      analyze_incident svc
        { user_id := u, session_id := s, query := q } turn := by
  refine ⟨ensure_session_idem svc u s, ?_⟩
  cases turn with
  | events evs => simp [analyze_incident, ensure_session_idem]
  | raised msg => simp [analyze_incident, ensure_session_idem]

/-- C7: a failing model call passes through consult_sre_expert unchanged
(no retry result and no fallback dictionary replaces it), and the façade
maps the raised failure to a generic 500 response carrying the message. -/
theorem policy_call_failure_propagates (svc : SessionService)
    (request : QueryRequest) (msg : String) (d : List (String × String)) :
    consult_sre_expert_call (Except.error msg) = Except.error msg ∧
    consult_sre_expert_call (Except.error msg) ≠ Except.ok d ∧
    (analyze_incident svc request (TurnOutcome.raised msg)).1 =
      ApiResult.httpError 500 msg := by
  refine ⟨rfl, ?_, rfl⟩
  simp [consult_sre_expert_call, Except.map]

/-- C8: for a successfully handled request the façade returns status
"success", the request session id, and a response text equal to the
concatenation, in emission order, of all text fragments emitted by the
orchestrator during the turn. -/
theorem facade_response_concatenates_fragments (svc : SessionService)
    (request : QueryRequest) (events : List Event) :
    (analyze_incident svc request (TurnOutcome.events events)).1 =
      ApiResult.ok
        { status := "success",
          session_id := request.session_id,
          response := joinAll (fragments events) } := by
  simp [analyze_incident, accumulateResponse_eq]

/-- C10: consult_sre_expert returns exactly the four keys analysis,
root_cause, severity and recommended_action, bound to the reasoning,
root_cause, severity and suggested_action fields of the prediction,
unmodified. -/
theorem consult_dict_shape (p : Prediction) :
    (consult_sre_expert p).map Prod.fst =
      ["analysis", "root_cause", "severity", "recommended_action"] ∧
    (consult_sre_expert p).lookup "analysis" = some p.reasoning ∧
    (consult_sre_expert p).lookup "root_cause" = some p.root_cause ∧
    (consult_sre_expert p).lookup "severity" = some p.severity ∧
    (consult_sre_expert p).lookup "recommended_action" =
      some p.suggested_action :=
  ⟨rfl, rfl, rfl, rfl, rfl⟩

end Sentinel
